import Mathlib

/-!
# Connectly — verification of the OAuth session & token lifecycle engine

Shallow embedding of the core of `accounts/utils.py`, `accounts/models.py`,
`linkedIn/views.py` and `twitter/views.py`.  Strings that only ever flow
through byte-level operations (tokens, base64 text) are modelled as lists of
byte values (`List Nat`, each `< 256`); identifier-like strings (platform
names, dictionary keys, states) are modelled as `String`; timestamps as `Nat`.
Database tables are lists of records; Django's `objects.get` is modelled by
filtering, with the `DoesNotExist` / `MultipleObjectsReturned` outcomes
reflected in the shape of the filtered list.
-/

namespace Connectly

/-- Byte strings: each element is intended to be `< 256`. -/
abbrev Bytes := List Nat

/-- All elements of the list are bytes. -/
def ValidBytes (bs : Bytes) : Prop := ∀ b ∈ bs, b < 256

instance (bs : Bytes) : Decidable (ValidBytes bs) := by
  unfold ValidBytes; infer_instance

/-! ## Base64 (Python `base64.b64encode` / `b64decode`, standard alphabet) -/

/-- Standard base64 alphabet: sextet value to ASCII code
(`A`-`Z`, `a`-`z`, `0`-`9`, `+`, `/`). -/
def sextetToChar (v : Nat) : Nat :=
  if v < 26 then 65 + v
  else if v < 52 then 97 + (v - 26)
  else if v < 62 then 48 + (v - 52)
  else if v = 62 then 43
  else 47

/-- Inverse of the standard alphabet; `none` on a character outside it
(`=`, ASCII 61, is handled by the caller). -/
def charToSextet (c : Nat) : Option Nat :=
  if 65 ≤ c ∧ c ≤ 90 then some (c - 65)
  else if 97 ≤ c ∧ c ≤ 122 then some (26 + (c - 97))
  else if 48 ≤ c ∧ c ≤ 57 then some (52 + (c - 48))
  else if c = 43 then some 62
  else if c = 47 then some 63
  else none

/-- Base64 encoding of a byte string, three bytes to four characters,
`=` (ASCII 61) padding on the final partial group. -/
def b64encodeCore : Bytes → List Nat
  | [] => []
  | [a] => [sextetToChar (a / 4), sextetToChar (a % 4 * 16), 61, 61]
  | [a, b] =>
      [sextetToChar (a / 4), sextetToChar (a % 4 * 16 + b / 16),
       sextetToChar (b % 16 * 4), 61]
  | a :: b :: c :: rest =>
      sextetToChar (a / 4) :: sextetToChar (a % 4 * 16 + b / 16) ::
      sextetToChar (b % 16 * 4 + c / 64) :: sextetToChar (c % 64) ::
      b64encodeCore rest

/-- Base64 decoding, four characters to three bytes, `=` padding allowed only
at the very end; `none` on malformed input. -/
def b64decodeCore : List Nat → Option Bytes
  | [] => some []
  | w :: x :: y :: z :: rest =>
    match charToSextet w, charToSextet x with
    | some sw, some sx =>
      if y = 61 then
        if z = 61 ∧ rest = [] then some [sw * 4 + sx / 16] else none
      else
        match charToSextet y with
        | some sy =>
          if z = 61 then
            if rest = [] then some [sw * 4 + sx / 16, sx % 16 * 16 + sy / 4]
            else none
          else
            match charToSextet z with
            | some sz =>
              match b64decodeCore rest with
              | some tl =>
                  some ((sw * 4 + sx / 16) :: (sx % 16 * 16 + sy / 4) ::
                        (sy % 4 * 64 + sz) :: tl)
              | none => none
            | none => none
        | none => none
    | _, _ => none
  | _ => none

theorem charToSextet_sextetToChar_fin :
    ∀ v : Fin 64, charToSextet (sextetToChar v.val) = some v.val := by decide

theorem charToSextet_sextetToChar {v : Nat} (h : v < 64) :
    charToSextet (sextetToChar v) = some v :=
  charToSextet_sextetToChar_fin ⟨v, h⟩

theorem sextetToChar_ne_pad_fin : ∀ v : Fin 64, sextetToChar v.val ≠ 61 := by
  decide

theorem sextetToChar_ne_pad {v : Nat} (h : v < 64) : sextetToChar v ≠ 61 :=
  sextetToChar_ne_pad_fin ⟨v, h⟩

theorem b64_roundtrip : ∀ bs : Bytes, ValidBytes bs →
    b64decodeCore (b64encodeCore bs) = some bs
  | [], _ => by simp [b64encodeCore, b64decodeCore]
  | [a], h => by
      have ha : a < 256 := h a (by simp)
      have h1 : a / 4 < 64 := by omega
      have h2 : a % 4 * 16 < 64 := by omega
      simp [b64encodeCore, b64decodeCore,
        charToSextet_sextetToChar h1, charToSextet_sextetToChar h2]
      omega
  | [a, b], h => by
      have ha : a < 256 := h a (by simp)
      have hb : b < 256 := h b (by simp)
      have h1 : a / 4 < 64 := by omega
      have h2 : a % 4 * 16 + b / 16 < 64 := by omega
      have h3 : b % 16 * 4 < 64 := by omega
      simp [b64encodeCore, b64decodeCore,
        charToSextet_sextetToChar h1, charToSextet_sextetToChar h2,
        charToSextet_sextetToChar h3, sextetToChar_ne_pad h3]
      omega
  | a :: b :: c :: rest, h => by
      have ha : a < 256 := h a (by simp)
      have hb : b < 256 := h b (by simp)
      have hc : c < 256 := h c (by simp)
      have hrest : ValidBytes rest := fun x hx => h x (by simp [hx])
      have ih := b64_roundtrip rest hrest
      have h1 : a / 4 < 64 := by omega
      have h2 : a % 4 * 16 + b / 16 < 64 := by omega
      have h3 : b % 16 * 4 + c / 64 < 64 := by omega
      have h4 : c % 64 < 64 := by omega
      simp [b64encodeCore, b64decodeCore,
        charToSextet_sextetToChar h1, charToSextet_sextetToChar h2,
        charToSextet_sextetToChar h3, charToSextet_sextetToChar h4,
        sextetToChar_ne_pad h3, sextetToChar_ne_pad h4, ih]
      omega

theorem b64encodeCore_ne_nil : ∀ bs : Bytes, bs ≠ [] → b64encodeCore bs ≠ []
  | [], h => absurd rfl h
  | [_], _ => by simp [b64encodeCore]
  | [_, _], _ => by simp [b64encodeCore]
  | _ :: _ :: _ :: _, _ => by simp [b64encodeCore]

/-! ## Token codec (`TokenManager.encrypt_token` / `decrypt_token`)

The source XORs the token bytes with Django's `SECRET_KEY` repeated
`len(token) // len(key) + 1` times (`zip` truncates to the token length), then
base64-encodes; decryption inverts this and returns the empty string on any
failure.  The process-wide secret key is a parameter `key`. -/

/-- Python's `key * (n // len(key) + 1)`: the key repeated enough times to
cover `n` bytes. -/
def keyStream (key : Bytes) (n : Nat) : Bytes :=
  (List.replicate (n / key.length + 1) key).flatten

/-- `TokenManager.encrypt_token`: empty in, empty out; otherwise XOR with the
repeated key and base64-encode. -/
def encrypt_token (key : Bytes) (token : Bytes) : Bytes :=
  if token = [] then []
  else b64encodeCore (List.zipWith Nat.xor token (keyStream key token.length))

/-- `TokenManager.decrypt_token`: empty in, empty out; otherwise base64-decode
and XOR with the repeated key; any decode failure yields the empty string
(the source catches all exceptions and returns `""`). -/
def decrypt_token (key : Bytes) (ct : Bytes) : Bytes :=
  if ct = [] then []
  else
    match b64decodeCore ct with
    | some ebs => List.zipWith Nat.xor ebs (keyStream key ebs.length)
    | none => []

theorem keyStream_length {key : Bytes} (hk : key ≠ []) (n : Nat) :
    n ≤ (keyStream key n).length := by
  have hL : 0 < key.length := List.length_pos.mpr hk
  have hmod := Nat.mod_lt n hL
  have hdm := Nat.div_add_mod n key.length
  calc n = key.length * (n / key.length) + n % key.length := hdm.symm
    _ ≤ key.length * (n / key.length) + key.length := by omega
    _ = (n / key.length + 1) * key.length := by ring
    _ = (keyStream key n).length := by
        simp [keyStream, List.length_flatten, List.map_replicate,
          List.sum_replicate, smul_eq_mul, Nat.mul_comm]

theorem keyStream_valid {key : Bytes} (hkv : ValidBytes key) (n : Nat) :
    ValidBytes (keyStream key n) := by
  intro b hb
  simp only [keyStream, List.mem_flatten] at hb
  obtain ⟨l, hl, hbl⟩ := hb
  have := List.eq_of_mem_replicate hl
  exact hkv b (this ▸ hbl)

theorem zipWith_xor_cancel : ∀ t ks : Bytes, t.length ≤ ks.length →
    List.zipWith Nat.xor (List.zipWith Nat.xor t ks) ks = t
  | [], _, _ => by simp
  | _ :: _, [], h => by simp at h
  | a :: t, k :: ks, h => by
      have ih := zipWith_xor_cancel t ks (by simpa using h)
      simp only [List.zipWith, ih, List.cons.injEq, and_true]
      exact Nat.xor_cancel_right k a

theorem xor_byte_lt {a k : Nat} (ha : a < 256) (hk : k < 256) :
    Nat.xor a k < 256 := by
  have e : (256 : Nat) = 2 ^ 8 := by norm_num
  rw [e] at ha hk ⊢
  exact Nat.bitwise_lt ha hk

theorem zipWith_xor_valid : ∀ t ks : Bytes, ValidBytes t → ValidBytes ks →
    ValidBytes (List.zipWith Nat.xor t ks)
  | [], _, _, _ => by intro b hb; simp at hb
  | _ :: _, [], _, _ => by intro b hb; simp at hb
  | a :: t, k :: ks, ht, hks => by
      intro b hb
      simp only [List.zipWith, List.mem_cons] at hb
      rcases hb with h | h
      · subst h
        exact xor_byte_lt (ht a (by simp)) (hks k (by simp))
      · exact zipWith_xor_valid t ks (fun x hx => ht x (by simp [hx]))
          (fun x hx => hks x (by simp [hx])) b h

theorem decrypt_encrypt {key s : Bytes} (hk : key ≠ []) (hkv : ValidBytes key)
    (hsv : ValidBytes s) : decrypt_token key (encrypt_token key s) = s := by
  by_cases hs : s = []
  · subst hs; simp [encrypt_token, decrypt_token]
  · have hkslen := keyStream_length hk s.length
    have hksv := keyStream_valid hkv s.length
    have hencv : ValidBytes (List.zipWith Nat.xor s (keyStream key s.length)) :=
      zipWith_xor_valid _ _ hsv hksv
    have hlen :
        (List.zipWith Nat.xor s (keyStream key s.length)).length = s.length := by
      rw [List.length_zipWith]; omega
    have hslen : 0 < s.length := List.length_pos.mpr hs
    have henc_ne : List.zipWith Nat.xor s (keyStream key s.length) ≠ [] := by
      intro hcon
      rw [hcon] at hlen
      simp at hlen
      omega
    simp only [encrypt_token, if_neg hs, decrypt_token,
      if_neg (b64encodeCore_ne_nil _ henc_ne), b64_roundtrip _ hencv, hlen]
    exact zipWith_xor_cancel s _ hkslen

/-- C1: the token codec round-trips: for every non-empty byte string `s`
(with the process-wide secret key fixed, non-empty and byte-valued),
`decrypt_token (encrypt_token s) = s`, and both `encrypt_token` and
`decrypt_token` map the empty string to the empty string. -/
theorem c1_token_codec_roundtrip (key s : Bytes) (hk : key ≠ [])
    (hkv : ValidBytes key) (hsv : ValidBytes s) :
    (s ≠ [] → decrypt_token key (encrypt_token key s) = s) ∧
    encrypt_token key [] = [] ∧ decrypt_token key [] = [] :=
  ⟨fun _ => decrypt_encrypt hk hkv hsv, by simp [encrypt_token],
   by simp [decrypt_token]⟩

/-- Witness for C1 at a concrete key and token. -/
theorem c1_token_codec_roundtrip_witness :
    decrypt_token [1, 2, 3] (encrypt_token [1, 2, 3] [104, 101, 108, 108, 111]) =
      [104, 101, 108, 108, 111] ∧
    encrypt_token [1, 2, 3] [] = [] ∧ decrypt_token [1, 2, 3] [] = [] := by
  have h := c1_token_codec_roundtrip [1, 2, 3] [104, 101, 108, 108, 111]
    (by decide) (by decide) (by decide)
  exact ⟨h.1 (by decide), h.2.1, h.2.2⟩

/-! ## OAuth session store (`SessionData`, `SessionManager`)

`SessionData` rows (`accounts/models.py`); `temp_platform` models the
`temp_data['platform']` tag and `social_account` the nullable foreign key.
Timestamps are `Nat`; `is_expired` is `timezone.now() > expires_at`. -/

structure SessionData where
  id : Nat
  user : Nat
  oauth_state : String
  code_verifier : Bytes
  temp_platform : Option String
  social_account : Option Nat
  expires_at : Nat
deriving DecidableEq

/-- `SessionData.is_expired`: `timezone.now() > self.expires_at`. -/
def SessionData.is_expired (now : Nat) (s : SessionData) : Bool :=
  decide (now > s.expires_at)

/-- Rows of `SessionData.objects` matching a given `oauth_state`
(Django's `objects.get(oauth_state=state)` succeeds exactly when this
filter yields one row, raises `DoesNotExist` on zero and
`MultipleObjectsReturned` on several). -/
def sessionsByState (db : List SessionData) (state : String) :
    List SessionData :=
  db.filter (fun s => s.oauth_state = state)

/-- Deleting one `SessionData` row (`session.delete()`, by primary key). -/
def deleteSession (db : List SessionData) (sid : Nat) : List SessionData :=
  db.filter (fun s => s.id ≠ sid)

/-- `SessionManager.get_oauth_session`: look up by state; a found-but-expired
session is deleted and reported as not found; `DoesNotExist` is caught and
reported as not found.  (With several rows sharing the state Django's `get`
would raise; that branch is modelled as not-found and is not exercised by any
claim, which all assume the state picks out one row.) -/
def get_oauth_session (now : Nat) (db : List SessionData) (state : String) :
    Option SessionData × List SessionData :=
  match sessionsByState db state with
  | [s] =>
      if s.is_expired now then (none, deleteSession db s.id)
      else (some s, db)
  | _ => (none, db)

/-- C2: looking up a stored OAuth session by its state after its expiry
timestamp returns not-found and deletes the record from storage; looking up
an unexpired session returns it and leaves storage unchanged. -/
theorem c2_oauth_session_expiry (now : Nat) (db : List SessionData)
    (s : SessionData) (huniq : sessionsByState db s.oauth_state = [s]) :
    (s.expires_at < now →
      get_oauth_session now db s.oauth_state = (none, deleteSession db s.id) ∧
      s ∉ deleteSession db s.id) ∧
    (¬ s.expires_at < now →
      get_oauth_session now db s.oauth_state = (some s, db)) := by
  constructor
  · intro hexp
    constructor
    · simp [get_oauth_session, huniq, SessionData.is_expired, hexp]
    · intro hmem
      have := List.of_mem_filter hmem
      simp at this
  · intro hexp
    simp [get_oauth_session, huniq, SessionData.is_expired]
    omega

/-- Witness for C2: a two-row store where the matching session is expired,
and a store where it is not. -/
theorem c2_oauth_session_expiry_witness :
    get_oauth_session 100
      [⟨1, 7, "st", [], some "twitter", none, 50⟩,
       ⟨2, 7, "other", [], some "twitter", none, 500⟩] "st" =
      (none, [⟨2, 7, "other", [], some "twitter", none, 500⟩]) ∧
    get_oauth_session 100
      [⟨3, 7, "st2", [], some "twitter", none, 500⟩] "st2" =
      (some ⟨3, 7, "st2", [], some "twitter", none, 500⟩,
       [⟨3, 7, "st2", [], some "twitter", none, 500⟩]) := by
  constructor
  · have h := (c2_oauth_session_expiry 100
      [⟨1, 7, "st", [], some "twitter", none, 50⟩,
       ⟨2, 7, "other", [], some "twitter", none, 500⟩]
      ⟨1, 7, "st", [], some "twitter", none, 50⟩ (by decide)).1 (by decide)
    rw [h.1]
    decide
  · exact (c2_oauth_session_expiry 100
      [⟨3, 7, "st2", [], some "twitter", none, 500⟩]
      ⟨3, 7, "st2", [], some "twitter", none, 500⟩ (by decide)).2 (by decide)

/-! ## Credential store (`SocialMediaAccount`, `TokenManager`)

Display fields are `String`; token fields hold the encrypted byte strings
(`""` modelled as `[]`, which also stands for Django's `NULL` since both are
falsy wherever the source tests them).  `extra_data` is the JSON attribute
bag, modelled as an association list of string pairs. -/

structure SocialMediaAccount where
  id : Nat
  user : Nat
  platform : String
  platform_user_id : String
  username : String
  display_name : String
  email : String
  profile_url : String
  avatar_url : String
  access_token : Bytes
  refresh_token : Bytes
  token_expires_at : Option Nat
  scope : String
  status : String
  last_sync : Option Nat
  extra_data : List (String × String)
deriving DecidableEq

/-- `SocialMediaAccount.is_token_expired`: `False` when no expiry timestamp is
set, otherwise `timezone.now() > token_expires_at`. -/
def SocialMediaAccount.is_token_expired (now : Nat)
    (a : SocialMediaAccount) : Bool :=
  match a.token_expires_at with
  | none => false
  | some t => decide (now > t)

/-- `TokenManager.refresh_access_token`: the source is a stub that always
returns `None` ("implement in platform-specific handlers"). -/
def refresh_access_token (_a : SocialMediaAccount) : Option Unit := none

/-- `TokenManager.get_valid_token`: when the token is expired, try a refresh
(only if a refresh token is stored); on refresh failure mark the account
`expired`, save it, and return no token; when not expired, return the
decrypted access token with the account untouched. -/
def get_valid_token (key : Bytes) (now : Nat) (a : SocialMediaAccount) :
    Option Bytes × SocialMediaAccount :=
  if a.is_token_expired now then
    match (if a.refresh_token ≠ [] then refresh_access_token a else none) with
    | some _ => (some (decrypt_token key a.access_token), a)
    | none => (none, { a with status := "expired" })
  else (some (decrypt_token key a.access_token), a)

/-- C3: an account with a past expiry timestamp and an empty stored refresh
token yields no token and transitions to status `expired`; an account whose
expiry is unset or in the future yields the decrypted access token and is
left unchanged. -/
theorem c3_get_valid_token_expiry (key : Bytes) (now : Nat)
    (a : SocialMediaAccount) :
    (∀ t, a.token_expires_at = some t → t < now → a.refresh_token = [] →
      get_valid_token key now a = (none, { a with status := "expired" })) ∧
    ((a.token_expires_at = none ∨ ∃ t, a.token_expires_at = some t ∧ now < t) →
      get_valid_token key now a = (some (decrypt_token key a.access_token), a)) := by
  constructor
  · intro t ht hpast hrt
    simp [get_valid_token, SocialMediaAccount.is_token_expired, ht, hpast, hrt]
  · intro hfresh
    rcases hfresh with hnone | ⟨t, ht, hfut⟩
    · simp [get_valid_token, SocialMediaAccount.is_token_expired, hnone]
    · simp [get_valid_token, SocialMediaAccount.is_token_expired, ht]
      omega

/-- Witness for C3: an expired account with no refresh token, and a fresh
account. -/
theorem c3_get_valid_token_expiry_witness :
    get_valid_token [1, 2, 3] 100
      ⟨1, 7, "twitter", "tid", "u", "U", "", "", "", [65], [], some 50, "", "active", none, []⟩ =
      (none,
       ⟨1, 7, "twitter", "tid", "u", "U", "", "", "", [65], [], some 50, "", "expired", none, []⟩) ∧
    get_valid_token [1, 2, 3] 100
      ⟨2, 7, "twitter", "tid", "u", "U", "", "", "", [65], [], some 500, "", "active", none, []⟩ =
      (some (decrypt_token [1, 2, 3] [65]),
       ⟨2, 7, "twitter", "tid", "u", "U", "", "", "", [65], [], some 500, "", "active", none, []⟩) := by
  constructor
  · exact (c3_get_valid_token_expiry [1, 2, 3] 100
      ⟨1, 7, "twitter", "tid", "u", "U", "", "", "", [65], [], some 50, "", "active", none, []⟩).1
      50 rfl (by decide) rfl
  · exact (c3_get_valid_token_expiry [1, 2, 3] 100
      ⟨2, 7, "twitter", "tid", "u", "U", "", "", "", [65], [], some 500, "", "active", none, []⟩).2
      (Or.inr ⟨500, rfl, by decide⟩)

/-! ## OAuth callback, session-verification phase
(`linkedin_callback` and `twitter_callback`)

The phase of each callback view up to and including the ownership check:
query-parameter validation, state lookup via `get_oauth_session`, and the
`session.user == request.user` comparison.  `proceed` marks the point where
the source continues with the token exchange; the account table is threaded
through untouched, as the source does not read or write
`SocialMediaAccount` rows anywhere in this phase. -/

/-- Truthiness of an optional query parameter: Python's `not x` is true for
both a missing parameter and an empty string. -/
def truthyParam : Option String → Bool
  | none => false
  | some s => decide (s ≠ "")

inductive CallbackOutcome where
  | authError
  | invalidCallback
  | invalidSession
  | ownershipMismatch
  | proceed (s : SessionData)
deriving DecidableEq

/-- `linkedin_callback`, up to the ownership check: a found session owned by
another user is reported as an error and deleted (`session_data.delete()`);
the flow aborts before any account access. -/
def linkedin_callback_auth (now ru : Nat) (error code st : Option String)
    (sdb : List SessionData) (adb : List SocialMediaAccount) :
    CallbackOutcome × List SessionData × List SocialMediaAccount :=
  if truthyParam error then (.authError, sdb, adb)
  else if ¬ truthyParam code ∨ ¬ truthyParam st then (.invalidCallback, sdb, adb)
  else
    match get_oauth_session now sdb (st.getD "") with
    | (none, sdb1) => (.invalidSession, sdb1, adb)
    | (some s, sdb1) =>
        if s.user ≠ ru then (.ownershipMismatch, deleteSession sdb1 s.id, adb)
        else (.proceed s, sdb1, adb)

/-- `twitter_callback`, up to the ownership check: the source folds not-found
and ownership mismatch into one `Invalid session state` branch and does NOT
delete the mismatched session; the flow aborts before any account access. -/
def twitter_callback_auth (now ru : Nat) (error code st : Option String)
    (sdb : List SessionData) (adb : List SocialMediaAccount) :
    CallbackOutcome × List SessionData × List SocialMediaAccount :=
  if truthyParam error then (.authError, sdb, adb)
  else if ¬ truthyParam code ∨ ¬ truthyParam st then (.invalidCallback, sdb, adb)
  else
    match get_oauth_session now sdb (st.getD "") with
    | (none, sdb1) => (.invalidSession, sdb1, adb)
    | (some s, sdb1) =>
        if s.user ≠ ru then (.invalidSession, sdb1, adb)
        else (.proceed s, sdb1, adb)

/-- C4 counterexample: a Twitter callback carrying a state that resolves to an
unexpired session owned by user 1, arriving as user 2, fails but leaves the
mismatched session in storage — the claim's "the mismatched session is
deleted" is false for the Twitter flow. -/
theorem c4_counterexample_twitter_keeps_session :
    twitter_callback_auth 100 2 none (some "c") (some "st")
        [⟨1, 1, "st", [], some "twitter", none, 500⟩] [] =
      (.invalidSession, [⟨1, 1, "st", [], some "twitter", none, 500⟩], []) := by
  decide

/-- C4 (amended): a callback carrying a state that resolves to an unexpired
session owned by a different user fails without creating or mutating any
account; the LinkedIn flow deletes the mismatched session, while the Twitter
flow reports the same generic failure but leaves the session in storage. -/
theorem c4_ownership_mismatch (now ru : Nat) (code st : String)
    (sdb : List SessionData) (adb : List SocialMediaAccount)
    (s : SessionData) (hcode : code ≠ "") (hst : st ≠ "")
    (huniq : sessionsByState sdb st = [s])
    (hfresh : ¬ s.expires_at < now) (hmis : s.user ≠ ru) :
    linkedin_callback_auth now ru none (some code) (some st) sdb adb =
      (.ownershipMismatch, deleteSession sdb s.id, adb) ∧
    twitter_callback_auth now ru none (some code) (some st) sdb adb =
      (.invalidSession, sdb, adb) := by
  have hexp : s.is_expired now = false := by
    simp [SessionData.is_expired]; omega
  constructor
  · simp [linkedin_callback_auth, truthyParam, hcode, hst,
      get_oauth_session, huniq, hexp, hmis]
  · simp [twitter_callback_auth, truthyParam, hcode, hst,
      get_oauth_session, huniq, hexp, hmis]

/-- Witness for C4 (amended) at a concrete mismatched callback. -/
theorem c4_ownership_mismatch_witness :
    linkedin_callback_auth 100 2 none (some "c") (some "st")
        [⟨1, 1, "st", [], some "linkedin", none, 500⟩] [] =
      (.ownershipMismatch, [], []) ∧
    twitter_callback_auth 100 2 none (some "c") (some "st")
        [⟨1, 1, "st", [], some "linkedin", none, 500⟩] [] =
      (.invalidSession, [⟨1, 1, "st", [], some "linkedin", none, 500⟩], []) := by
  have h := c4_ownership_mismatch 100 2 "c" "st"
    [⟨1, 1, "st", [], some "linkedin", none, 500⟩] []
    ⟨1, 1, "st", [], some "linkedin", none, 500⟩
    (by decide) (by decide) (by decide) (by decide) (by decide)
  refine ⟨?_, h.2⟩
  rw [h.1]
  decide

/-! ## Disconnect (`TokenManager.disconnect_account`,
`TokenManager._revoke_platform_token`,
`SessionManager.cleanup_user_platform_sessions`)

The persistent tables touched by disconnect.  `APICallLog` rows are the
`CallLogEntry` records of the request client; the other dependent tables
(`UserAnalytics`, `LinkedInProfile`, `TwitterProfile`, `Tweet`,
`TwitterFollower`, `TwitterHashtag`) enter the disconnect path only through
their `social_account` foreign key and are modelled as bare keyed rows.
The outcome of the outbound revocation HTTP call is a parameter. -/

structure CallLogEntry where
  user : Nat
  social_account : Nat
  endpoint : String
  method : String
  status_code : Nat
  rate_limit_remaining : Option Nat
  rate_limit_reset : Option Nat
  error_message : String
deriving DecidableEq

structure DependentRow where
  id : Nat
  social_account : Nat
deriving DecidableEq

structure AppState where
  accounts : List SocialMediaAccount
  api_call_logs : List CallLogEntry
  user_analytics : List DependentRow
  session_data : List SessionData
  linkedin_profiles : List DependentRow
  twitter_profiles : List DependentRow
  tweets : List DependentRow
  twitter_followers : List DependentRow
  twitter_hashtags : List DependentRow
deriving DecidableEq

/-- Outcome of the outbound revocation request: an HTTP response with some
status, or a raised transport-level exception. -/
inductive RevokeOutcome where
  | http (status : Nat)
  | raised (msg : String)
deriving DecidableEq

/-- `TokenManager._revoke_platform_token`: decrypt the stored token (bail out
if empty, which covers the undecryptable case), post to the platform's revoke
endpoint, report success only on HTTP 200; every failure — non-200 status,
raised exception, unknown platform — is swallowed and only reflected in the
returned telemetry flag, which the caller discards. -/
def revoke_platform_token (key : Bytes) (outcome : RevokeOutcome)
    (a : SocialMediaAccount) (platform : String) : Bool :=
  if decrypt_token key a.access_token = [] then false
  else if platform = "linkedin" ∨ platform = "twitter" then
    match outcome with
    | .http 200 => true
    | _ => false
  else false

/-- `SessionManager.cleanup_user_platform_sessions`: delete every
`SessionData` row of this user tagged with this platform. -/
def cleanup_user_platform_sessions (db : List SessionData) (user : Nat)
    (platform : String) : List SessionData :=
  db.filter (fun s => ¬ (s.user = user ∧ s.temp_platform = some platform))

/-- Rows matching `SocialMediaAccount.objects.get(user=..., platform=...)`:
the `get` succeeds exactly when this filter yields one row; both
`DoesNotExist` and `MultipleObjectsReturned` are caught by the source's
`except` clauses and turn into a `False` return. -/
def accountsByUserPlatform (db : List SocialMediaAccount) (user : Nat)
    (platform : String) : List SocialMediaAccount :=
  db.filter (fun a => a.user = user ∧ a.platform = platform)

/-- `TokenManager.disconnect_account`: look up the account for
(user, platform); on anything but exactly one row, return `False` with the
store untouched.  Otherwise: best-effort remote revocation (result
discarded), delete API call logs, analytics and session rows keyed by the
account, delete the (user, platform)-tagged OAuth sessions, delete the
platform-specific profile rows, delete the account, return `True`. -/
def disconnect_account (key : Bytes) (ro : RevokeOutcome) (st : AppState)
    (user : Nat) (platform : String) : Bool × AppState :=
  match accountsByUserPlatform st.accounts user platform with
  | [acc] =>
      let _revoked := revoke_platform_token key ro acc platform
      let st1 := { st with
        api_call_logs :=
          st.api_call_logs.filter (fun l => l.social_account ≠ acc.id),
        user_analytics :=
          st.user_analytics.filter (fun r => r.social_account ≠ acc.id),
        session_data := cleanup_user_platform_sessions
          (st.session_data.filter (fun s => s.social_account ≠ some acc.id))
          user platform }
      let st2 :=
        if platform = "linkedin" then
          { st1 with linkedin_profiles :=
              st1.linkedin_profiles.filter (fun r => r.social_account ≠ acc.id) }
        else if platform = "twitter" then
          { st1 with
            twitter_profiles :=
              st1.twitter_profiles.filter (fun r => r.social_account ≠ acc.id),
            tweets := st1.tweets.filter (fun r => r.social_account ≠ acc.id),
            twitter_followers :=
              st1.twitter_followers.filter (fun r => r.social_account ≠ acc.id),
            twitter_hashtags :=
              st1.twitter_hashtags.filter (fun r => r.social_account ≠ acc.id) }
        else st1
      (true, { st2 with accounts := st2.accounts.filter (fun a => a.id ≠ acc.id) })
  | _ => (false, st)

/-- C5 counterexample: a user with two linked Twitter accounts (distinct
platform user ids, which the natural key permits).  `objects.get(user,
platform)` raises `MultipleObjectsReturned`, caught by the blanket handler:
disconnect returns `false` and touches nothing although LinkedAccount rows
matching (user, platform) exist — refuting the claimed "returns false ...
if and only if no LinkedAccount matches". -/
theorem c5_counterexample_disconnect_multiple :
    disconnect_account [1] (.http 200)
      ⟨[⟨1, 7, "twitter", "p1", "u1", "", "", "", "", [65], [], none, "", "active", none, []⟩,
        ⟨2, 7, "twitter", "p2", "u2", "", "", "", "", [66], [], none, "", "active", none, []⟩],
       [], [], [], [], [], [], [], []⟩ 7 "twitter" =
      (false,
       ⟨[⟨1, 7, "twitter", "p1", "u1", "", "", "", "", [65], [], none, "", "active", none, []⟩,
         ⟨2, 7, "twitter", "p2", "u2", "", "", "", "", [66], [], none, "", "active", none, []⟩],
        [], [], [], [], [], [], [], []⟩) ∧
    accountsByUserPlatform
      [⟨1, 7, "twitter", "p1", "u1", "", "", "", "", [65], [], none, "", "active", none, []⟩,
       ⟨2, 7, "twitter", "p2", "u2", "", "", "", "", [66], [], none, "", "active", none, []⟩]
      7 "twitter" ≠ [] := by
  decide

/-- C5 (amended): disconnect returns `false` and touches no stored rows
exactly when the number of LinkedAccount rows matching (user, platform) is
not one (zero — not found — or several, which raises and is swallowed);
when exactly one matches it deletes precisely the dependent rows keyed by
that account (call logs, analytics, session rows, and the matching
platform's profile tables), the OAuth sessions tagged for (user, platform),
and the account itself, leaves every other row in place, and returns
`true`. -/
theorem c5_disconnect_spec (key : Bytes) (ro : RevokeOutcome) (st : AppState)
    (user : Nat) (platform : String) :
    ((accountsByUserPlatform st.accounts user platform).length ≠ 1 →
      disconnect_account key ro st user platform = (false, st)) ∧
    (∀ acc, accountsByUserPlatform st.accounts user platform = [acc] →
      (disconnect_account key ro st user platform).1 = true ∧
      (∀ a, a ∈ (disconnect_account key ro st user platform).2.accounts ↔
        a ∈ st.accounts ∧ a.id ≠ acc.id) ∧
      (∀ l, l ∈ (disconnect_account key ro st user platform).2.api_call_logs ↔
        l ∈ st.api_call_logs ∧ l.social_account ≠ acc.id) ∧
      (∀ r, r ∈ (disconnect_account key ro st user platform).2.user_analytics ↔
        r ∈ st.user_analytics ∧ r.social_account ≠ acc.id) ∧
      (∀ s, s ∈ (disconnect_account key ro st user platform).2.session_data ↔
        s ∈ st.session_data ∧ s.social_account ≠ some acc.id ∧
        ¬ (s.user = user ∧ s.temp_platform = some platform)) ∧
      (platform = "linkedin" →
        (∀ r, r ∈ (disconnect_account key ro st user platform).2.linkedin_profiles ↔
          r ∈ st.linkedin_profiles ∧ r.social_account ≠ acc.id) ∧
        (disconnect_account key ro st user platform).2.twitter_profiles =
          st.twitter_profiles) ∧
      (platform = "twitter" →
        (disconnect_account key ro st user platform).2.linkedin_profiles =
          st.linkedin_profiles ∧
        (∀ r, r ∈ (disconnect_account key ro st user platform).2.twitter_profiles ↔
          r ∈ st.twitter_profiles ∧ r.social_account ≠ acc.id) ∧
        (∀ r, r ∈ (disconnect_account key ro st user platform).2.tweets ↔
          r ∈ st.tweets ∧ r.social_account ≠ acc.id) ∧
        (∀ r, r ∈ (disconnect_account key ro st user platform).2.twitter_followers ↔
          r ∈ st.twitter_followers ∧ r.social_account ≠ acc.id) ∧
        (∀ r, r ∈ (disconnect_account key ro st user platform).2.twitter_hashtags ↔
          r ∈ st.twitter_hashtags ∧ r.social_account ≠ acc.id))) := by
  constructor
  · intro hlen
    rcases hshape : accountsByUserPlatform st.accounts user platform with _ | ⟨a, rest⟩
    · simp [disconnect_account, hshape]
    · rcases rest with _ | ⟨b, rest2⟩
      · rw [hshape] at hlen; simp at hlen
      · simp [disconnect_account, hshape]
  · intro acc hacc
    by_cases hlp : platform = "linkedin"
    · subst hlp
      simp [disconnect_account, hacc, cleanup_user_platform_sessions,
        List.mem_filter, and_assoc]
      intro s _
      tauto
    · by_cases htp : platform = "twitter"
      · subst htp
        simp [disconnect_account, hacc, cleanup_user_platform_sessions,
          List.mem_filter, and_assoc]
        intro s _
        tauto
      · simp [disconnect_account, hacc, cleanup_user_platform_sessions,
          List.mem_filter, hlp, htp, and_assoc]
        intro s _
        tauto

/-- Witness for C5 (amended): a store with no matching account (not-found
no-op) and a store with exactly one matching Twitter account (full
cleanup). -/
theorem c5_disconnect_spec_witness :
    disconnect_account [1] (.http 200)
      ⟨[], [], [], [], [], [], [], [], []⟩ 7 "twitter" =
      (false, ⟨[], [], [], [], [], [], [], [], []⟩) ∧
    (disconnect_account [1] (.http 200)
      ⟨[⟨1, 7, "twitter", "p1", "u1", "", "", "", "", [65], [], none, "", "active", none, []⟩],
       [⟨7, 1, "me", "GET", 200, none, none, ""⟩], [], [], [], [], [], [], []⟩ 7 "twitter").1 = true ∧
    ¬ (⟨7, 1, "me", "GET", 200, none, none, ""⟩ : CallLogEntry) ∈
      (disconnect_account [1] (.http 200)
        ⟨[⟨1, 7, "twitter", "p1", "u1", "", "", "", "", [65], [], none, "", "active", none, []⟩],
         [⟨7, 1, "me", "GET", 200, none, none, ""⟩], [], [], [], [], [], [], []⟩ 7 "twitter").2.api_call_logs := by
  refine ⟨?_, ?_, ?_⟩
  · exact (c5_disconnect_spec [1] (.http 200)
      ⟨[], [], [], [], [], [], [], [], []⟩ 7 "twitter").1 (by decide)
  · exact ((c5_disconnect_spec [1] (.http 200)
      ⟨[⟨1, 7, "twitter", "p1", "u1", "", "", "", "", [65], [], none, "", "active", none, []⟩],
       [⟨7, 1, "me", "GET", 200, none, none, ""⟩], [], [], [], [], [], [], []⟩ 7 "twitter").2
      ⟨1, 7, "twitter", "p1", "u1", "", "", "", "", [65], [], none, "", "active", none, []⟩
      (by decide)).1
  · intro hmem
    have h := (((c5_disconnect_spec [1] (.http 200)
      ⟨[⟨1, 7, "twitter", "p1", "u1", "", "", "", "", [65], [], none, "", "active", none, []⟩],
       [⟨7, 1, "me", "GET", 200, none, none, ""⟩], [], [], [], [], [], [], []⟩ 7 "twitter").2
      ⟨1, 7, "twitter", "p1", "u1", "", "", "", "", [65], [], none, "", "active", none, []⟩
      (by decide)).2.2.1 ⟨7, 1, "me", "GET", 200, none, none, ""⟩).mp hmem
    simp at h

/-- C6: the outcome of the remote revocation call — non-200 response,
transport exception, or nothing to revoke — never changes what disconnect
does locally: the result and final store are identical for every revocation
outcome, and with an existing (unique) account disconnect still completes
with `true`. -/
theorem c6_revocation_never_blocks (key : Bytes) (st : AppState) (user : Nat)
    (platform : String) :
    (∀ o1 o2, disconnect_account key o1 st user platform =
      disconnect_account key o2 st user platform) ∧
    (∀ acc o, accountsByUserPlatform st.accounts user platform = [acc] →
      (disconnect_account key o st user platform).1 = true) := by
  constructor
  · intro o1 o2
    rcases hshape : accountsByUserPlatform st.accounts user platform with _ | ⟨a, rest⟩
    · simp [disconnect_account, hshape]
    · rcases rest with _ | ⟨b, rest2⟩
      · simp [disconnect_account, hshape]
      · simp [disconnect_account, hshape]
  · intro acc o hacc
    simp [disconnect_account, hacc]

/-- Witness for C6: a transport exception during revocation leaves the
result identical to a successful revocation, and disconnect returns
`true`. -/
theorem c6_revocation_never_blocks_witness :
    disconnect_account [1] (.raised "boom")
      ⟨[⟨1, 7, "twitter", "p1", "u1", "", "", "", "", [65], [], none, "", "active", none, []⟩],
       [], [], [], [], [], [], [], []⟩ 7 "twitter" =
    disconnect_account [1] (.http 200)
      ⟨[⟨1, 7, "twitter", "p1", "u1", "", "", "", "", [65], [], none, "", "active", none, []⟩],
       [], [], [], [], [], [], [], []⟩ 7 "twitter" ∧
    (disconnect_account [1] (.raised "boom")
      ⟨[⟨1, 7, "twitter", "p1", "u1", "", "", "", "", [65], [], none, "", "active", none, []⟩],
       [], [], [], [], [], [], [], []⟩ 7 "twitter").1 = true := by
  have h := c6_revocation_never_blocks [1]
    ⟨[⟨1, 7, "twitter", "p1", "u1", "", "", "", "", [65], [], none, "", "active", none, []⟩],
     [], [], [], [], [], [], [], []⟩ 7 "twitter"
  exact ⟨h.1 (.raised "boom") (.http 200),
    h.2 ⟨1, 7, "twitter", "p1", "u1", "", "", "", "", [65], [], none, "", "active", none, []⟩
      (.raised "boom") (by decide)⟩

/-! ## Authenticated request client (`APIClient.make_request`,
`APIClient._log_api_call`)

The outcome of the outbound HTTP call is a parameter: a response with a
status, its headers, a body text and an optionally decodable JSON payload
(the payload is abstracted to a `Nat` tag; `json = none` models
`response.json()` raising), or a raised transport-level exception.
`_log_api_call` extracts the platform's rate-limit headers and runs Python's
`int()` on each truthy value, which RAISES on a non-numeric string (e.g.
LinkedIn's `X-Restli-Protocol-Version: 2.0.0`) before the row is created;
the model therefore returns `Except`, with `.error` the escaped
`ValueError`.  The wall-clock latency float is the one field of the row not
modelled. -/

deriving instance DecidableEq for Except

/-- Python dict key access (`d[k]` / `headers.get(k)`). -/
def dictLookup {α : Type} (d : List (String × α)) (k : String) : Option α :=
  match d with
  | [] => none
  | (k1, v) :: t => if k1 = k then some v else dictLookup t k

/-- Python `int(s)` on a decimal string: succeeds exactly on non-empty
all-digit strings (no header in scope carries a sign or whitespace). -/
def parseIntStr (s : String) : Option Nat :=
  if s.data ≠ [] ∧ s.data.all (fun c => 48 ≤ c.toNat ∧ c.toNat ≤ 57) then
    some (s.data.foldl (fun acc c => acc * 10 + (c.toNat - 48)) 0)
  else none

/-- Python `int(s)`, with the `ValueError` it raises on a non-numeric
string. -/
def pyInt (s : String) : Except String Nat :=
  match parseIntStr s with
  | some n => .ok n
  | none => .error ("invalid literal for int(): " ++ s)

/-- `int(v) if v else None` on an optional header value: a missing or empty
value stays `None`, a truthy one must parse or the `ValueError`
propagates. -/
def parseTruthy : Option String → Except String (Option Nat)
  | some r => if r = "" then .ok none else Except.map some (pyInt r)
  | none => .ok none

/-- The rate-limit extraction of `_log_api_call`: LinkedIn reads
`X-Restli-Protocol-Version` as the remaining count, Twitter reads
`x-rate-limit-remaining` and parses a truthy `x-rate-limit-reset` first
(source order); other platforms extract nothing.  `.error` is the raised
`ValueError`. -/
def extract_rate_limits (platform : String)
    (headers : List (String × String)) :
    Except String (Option Nat × Option Nat) :=
  let rlrS : Option String :=
    if platform = "linkedin" then dictLookup headers "X-Restli-Protocol-Version"
    else if platform = "twitter" then dictLookup headers "x-rate-limit-remaining"
    else none
  let rstS : Option String :=
    if platform = "twitter" then dictLookup headers "x-rate-limit-reset"
    else none
  match parseTruthy rstS with
  | .error e => .error e
  | .ok rst =>
    match parseTruthy rlrS with
    | .error e => .error e
    | .ok rlr => .ok (rlr, rst)

/-- `APIClient._log_api_call`: extract the rate-limit headers (possibly
raising) and build the `APICallLog` row.  The source stores
`method.upper()`; the model takes the verb already upper-cased. -/
def log_api_call (acc : SocialMediaAccount) (endpoint method : String)
    (status_code : Nat) (headers : List (String × String))
    (error_message : String) : Except String CallLogEntry :=
  match extract_rate_limits acc.platform headers with
  | .ok (rlr, rst) =>
      .ok ⟨acc.user, acc.id, endpoint, method, status_code, rlr, rst,
           error_message⟩
  | .error e => .error e

/-- The row written by the `except` handler's log call, which passes empty
headers (`{}`): nothing is found, no `int()` runs, so that call cannot
raise — `log_api_call_nil_headers` proves this agrees with
`log_api_call`. -/
def log_api_call_empty (acc : SocialMediaAccount) (endpoint method : String)
    (status_code : Nat) (error_message : String) : CallLogEntry :=
  ⟨acc.user, acc.id, endpoint, method, status_code, none, none,
   error_message⟩

theorem log_api_call_nil_headers (acc : SocialMediaAccount)
    (endpoint method : String) (status_code : Nat) (error_message : String) :
    log_api_call acc endpoint method status_code [] error_message =
      .ok (log_api_call_empty acc endpoint method status_code error_message) := by
  simp [log_api_call, log_api_call_empty, extract_rate_limits, parseTruthy,
    dictLookup]

inductive HttpOutcome where
  | response (status : Nat) (headers : List (String × String)) (body : String)
      (json : Option Nat)
  | raised (msg : String)
deriving DecidableEq

/-- `APIClient.make_request`: resolve a token via `get_valid_token` (a `None`
or empty token aborts with no call and no log entry); an unsupported method
raises `ValueError`, caught and logged with status 0 and empty headers.
With a response, the unconditional log call runs with the response headers:
if its rate-limit `int()` parse raises, the `except` handler writes one
status-0 row (empty headers) and no payload is returned, whatever the
status was; otherwise a non-200 status is logged a second time with the
response text, a 200 whose body does not decode falls into the `except`
handler after the first row, and a decodable 200 returns the payload.  A
raised transport exception is logged once with status 0. -/
def make_request (key : Bytes) (now : Nat) (outcome : HttpOutcome)
    (acc : SocialMediaAccount) (endpoint method : String) :
    Option Nat × SocialMediaAccount × List CallLogEntry :=
  match get_valid_token key now acc with
  | (none, acc1) => (none, acc1, [])
  | (some tok, acc1) =>
    if tok = [] then (none, acc1, [])
    else if method = "GET" ∨ method = "POST" ∨
        method = "PUT" ∨ method = "DELETE" then
      match outcome with
      | .raised msg =>
          (none, acc1, [log_api_call_empty acc1 endpoint method 0 msg])
      | .response status headers body json =>
        match log_api_call acc1 endpoint method status headers "" with
        | .error e =>
            (none, acc1, [log_api_call_empty acc1 endpoint method 0 e])
        | .ok log1 =>
          if status = 200 then
            match json with
            | some payload => (some payload, acc1, [log1])
            | none =>
                (none, acc1,
                 [log1,
                  log_api_call_empty acc1 endpoint method 0 "json decode error"])
          else
            match log_api_call acc1 endpoint method status headers body with
            | .ok log2 => (none, acc1, [log1, log2])
            | .error e =>
                (none, acc1,
                 [log1, log_api_call_empty acc1 endpoint method 0 e])
    else
      (none, acc1,
       [log_api_call_empty acc1 endpoint method 0 "Unsupported HTTP method"])

/-- C7 counterexample: with a valid token, (i) a 404 response writes TWO
CallLogEntries, not one; and (ii) a 200 response from LinkedIn carrying its
standard `X-Restli-Protocol-Version: 2.0.0` header makes the rate-limit
`int()` parse raise inside the unconditional log call, so exactly one entry
with status 0 is written and NO payload is returned — refuting "exactly one
CallLogEntry ... on HTTP 200 the decoded payload is returned ... status
code 0 reserved for transport-level failure". -/
theorem c7_counterexample_logging :
    (get_valid_token [1] 0
      ⟨1, 7, "twitter", "p", "u", "", "", "", "", encrypt_token [1] [65], [],
       none, "", "active", none, []⟩).1 = some [65] ∧
    ((make_request [1] 0 (.response 404 [] "not found" none)
      ⟨1, 7, "twitter", "p", "u", "", "", "", "", encrypt_token [1] [65], [],
       none, "", "active", none, []⟩
      "users/me" "GET").2.2).length = 2 ∧
    make_request [1] 0
      (.response 200 [("X-Restli-Protocol-Version", "2.0.0")] "ok" (some 42))
      ⟨2, 7, "linkedin", "p", "u", "", "", "", "", encrypt_token [1] [65], [],
       none, "", "active", none, []⟩
      "userinfo" "GET" =
      (none,
       ⟨2, 7, "linkedin", "p", "u", "", "", "", "", encrypt_token [1] [65], [],
        none, "", "active", none, []⟩,
       [⟨7, 2, "userinfo", "GET", 0, none, none,
         "invalid literal for int(): 2.0.0"⟩]) := by
  decide

/-- C7 (amended): when a non-empty token is obtained and the method is
supported, every issued request writes at least one CallLogEntry, but not
always exactly one, and status 0 is not confined to transport failures:
a transport exception writes exactly one entry with status 0; a response
whose rate-limit header parse raises (truthy non-numeric value, e.g.
LinkedIn's protocol-version header) writes exactly one status-0 entry and
returns no payload even on HTTP 200; a parse-clean decodable 200 writes
exactly one entry and returns the payload; a parse-clean 200 whose body
does not decode writes that entry plus a status-0 entry; a parse-clean
non-200 writes exactly two entries, the second repeating the first with the
response text as error message. -/
theorem c7_make_request_logging (key : Bytes) (now : Nat)
    (acc : SocialMediaAccount) (endpoint method : String) (tok : Bytes)
    (htok : (get_valid_token key now acc).1 = some tok) (hne : tok ≠ [])
    (hm : method = "GET" ∨ method = "POST" ∨
          method = "PUT" ∨ method = "DELETE") :
    (∀ msg, make_request key now (.raised msg) acc endpoint method =
      (none, (get_valid_token key now acc).2,
       [log_api_call_empty (get_valid_token key now acc).2
          endpoint method 0 msg])) ∧
    (∀ status headers body json e,
      log_api_call (get_valid_token key now acc).2
          endpoint method status headers "" = .error e →
      make_request key now (.response status headers body json)
          acc endpoint method =
      (none, (get_valid_token key now acc).2,
       [log_api_call_empty (get_valid_token key now acc).2
          endpoint method 0 e])) ∧
    (∀ headers body payload log1,
      log_api_call (get_valid_token key now acc).2
          endpoint method 200 headers "" = .ok log1 →
      make_request key now (.response 200 headers body (some payload))
          acc endpoint method =
      (some payload, (get_valid_token key now acc).2, [log1])) ∧
    (∀ headers body log1,
      log_api_call (get_valid_token key now acc).2
          endpoint method 200 headers "" = .ok log1 →
      make_request key now (.response 200 headers body none)
          acc endpoint method =
      (none, (get_valid_token key now acc).2,
       [log1, log_api_call_empty (get_valid_token key now acc).2
          endpoint method 0 "json decode error"])) ∧
    (∀ status headers body json log1, status ≠ 200 →
      log_api_call (get_valid_token key now acc).2
          endpoint method status headers "" = .ok log1 →
      make_request key now (.response status headers body json)
          acc endpoint method =
      (none, (get_valid_token key now acc).2,
       [log1, { log1 with error_message := body }])) := by
  rcases hgv : get_valid_token key now acc with ⟨topt, acc1⟩
  rw [hgv] at htok
  simp only at htok
  subst htok
  refine ⟨?_, ?_, ?_, ?_, ?_⟩
  · intro msg
    simp [make_request, hgv, hne, if_pos hm]
  · intro status headers body json e herr
    simp only at herr
    simp [make_request, hgv, hne, if_pos hm, herr]
  · intro headers body payload log1 hok
    simp only at hok
    simp [make_request, hgv, hne, if_pos hm, hok]
  · intro headers body log1 hok
    simp only at hok
    simp [make_request, hgv, hne, if_pos hm, hok]
  · intro status headers body json log1 hstatus hok
    simp only at hok
    rcases hex : extract_rate_limits acc1.platform headers with e | ⟨rlr, rst⟩
    · simp [log_api_call, hex] at hok
    · simp only [log_api_call, hex, Except.ok.injEq] at hok
      subst hok
      simp [make_request, hgv, hne, if_pos hm, hstatus, log_api_call, hex]

/-- Witness for C7 (amended): a transport exception and a parse-clean 200
with a numeric Twitter rate-limit header, at a concrete account. -/
theorem c7_make_request_logging_witness :
    make_request [1] 0 (.raised "timeout")
      ⟨1, 7, "twitter", "p", "u", "", "", "", "", encrypt_token [1] [65], [],
       none, "", "active", none, []⟩ "users/me" "GET" =
      (none,
       ⟨1, 7, "twitter", "p", "u", "", "", "", "", encrypt_token [1] [65], [],
        none, "", "active", none, []⟩,
       [⟨7, 1, "users/me", "GET", 0, none, none, "timeout"⟩]) ∧
    make_request [1] 0
      (.response 200 [("x-rate-limit-remaining", "5")] "ok" (some 42))
      ⟨1, 7, "twitter", "p", "u", "", "", "", "", encrypt_token [1] [65], [],
       none, "", "active", none, []⟩ "users/me" "GET" =
      (some 42,
       ⟨1, 7, "twitter", "p", "u", "", "", "", "", encrypt_token [1] [65], [],
        none, "", "active", none, []⟩,
       [⟨7, 1, "users/me", "GET", 200, some 5, none, ""⟩]) := by
  have h := c7_make_request_logging [1] 0
    ⟨1, 7, "twitter", "p", "u", "", "", "", "", encrypt_token [1] [65], [],
     none, "", "active", none, []⟩ "users/me" "GET" [65]
    (by decide) (by decide) (by decide)
  constructor
  · rw [h.1 "timeout"]
    decide
  · rw [h.2.2.1 [("x-rate-limit-remaining", "5")] "ok" 42
      ⟨7, 1, "users/me", "GET", 200, some 5, none, ""⟩ (by decide)]
    decide

/-! ## Token and profile storage (`TokenManager.store_tokens`)

`user_data` and `extra_data` are Python dicts of strings, modelled as
association lists (first binding wins). -/

/-- Python `d.get(k, default)`: the default applies only when the key is
absent — a present-but-empty value is returned as is. -/
def dictGet (d : List (String × String)) (k : String) (dflt : String) :
    String :=
  match dictLookup d k with
  | some v => v
  | none => dflt

/-- Python `old.update(new)`: bindings of `new` win, other bindings of `old`
survive. -/
def dictUpdate (old new : List (String × String)) :
    List (String × String) :=
  new ++ old.filter (fun kv => dictLookup new kv.1 = none)

theorem dictLookup_append (d1 d2 : List (String × String)) (k : String) :
    dictLookup (d1 ++ d2) k =
      match dictLookup d1 k with
      | some v => some v
      | none => dictLookup d2 k := by
  induction d1 with
  | nil => simp [dictLookup]
  | cons kv t ih =>
      by_cases hk : kv.1 = k
      · simp [dictLookup, hk]
      · simp [dictLookup, hk, ih]

theorem dictLookup_filter_absent (old new : List (String × String))
    (k : String) (hk : dictLookup new k = none) :
    dictLookup (old.filter (fun kv => dictLookup new kv.1 = none)) k =
      dictLookup old k := by
  induction old with
  | nil => rfl
  | cons kv t ih =>
      by_cases hkk : kv.1 = k
      · have : dictLookup new kv.1 = none := by rw [hkk]; exact hk
        simp [List.filter_cons, this, dictLookup, hkk, hk]
      · by_cases hp : dictLookup new kv.1 = none
        · simp [List.filter_cons, hp, dictLookup, hkk, ih]
        · simp [List.filter_cons, hp, dictLookup, hkk, ih]

/-- Merge semantics of `dict.update`: a key bound in `new` gets its new
value; any other key keeps its old binding. -/
theorem dictLookup_dictUpdate (old new : List (String × String))
    (k : String) :
    dictLookup (dictUpdate old new) k =
      match dictLookup new k with
      | some v => some v
      | none => dictLookup old k := by
  rw [dictUpdate, dictLookup_append]
  rcases hk : dictLookup new k with _ | v
  · simp [dictLookup_filter_absent old new k hk]
  · simp

/-- Rows matching the natural key
`objects.get(user=..., platform=..., platform_user_id=...)`; the
`unique_together` constraint promises at most one, `DoesNotExist` is the
empty case. -/
def accountsByNaturalKey (db : List SocialMediaAccount) (user : Nat)
    (platform : String) (pid : String) : List SocialMediaAccount :=
  db.filter
    (fun a => a.user = user ∧ a.platform = platform ∧ a.platform_user_id = pid)

/-- `TokenManager.store_tokens`: compute the expiry (only for a truthy
`expires_in`), require a truthy `user_data['id']` (else `ValueError`), then
update the existing natural-key row — display fields via `dict.get` with the
stored value as default, tokens re-encrypted (a falsy refresh token stores
`""`), status forced to `active`, `last_sync` stamped, `user_data` merged
into `extra_data` — or create a fresh row with empty-string defaults.
Several natural-key rows would raise `MultipleObjectsReturned`, uncaught
here. -/
def store_tokens (key : Bytes) (now : Nat) (db : List SocialMediaAccount)
    (nextId user : Nat) (platform : String) (access_token : Bytes)
    (refresh_token : Option Bytes) (expires_in : Option Nat)
    (scope : Option String) (user_data : List (String × String)) :
    Except String (SocialMediaAccount × List SocialMediaAccount) :=
  let expires_at : Option Nat :=
    match expires_in with
    | some e => if e ≠ 0 then some (now + e) else none
    | none => none
  if user_data = [] ∨ dictLookup user_data "id" = none ∨
      dictLookup user_data "id" = some "" then
    .error "Missing user_data or platform user ID"
  else
    let pid := (dictLookup user_data "id").getD ""
    let enc_refresh : Bytes :=
      match refresh_token with
      | some r => if r ≠ [] then encrypt_token key r else []
      | none => []
    match accountsByNaturalKey db user platform pid with
    | [acc] =>
        let updated : SocialMediaAccount :=
          { acc with
            username := dictGet user_data "username" acc.username,
            display_name := dictGet user_data "name" acc.display_name,
            email := dictGet user_data "email" acc.email,
            profile_url := dictGet user_data "profile_url" acc.profile_url,
            avatar_url := dictGet user_data "avatar_url" acc.avatar_url,
            access_token := encrypt_token key access_token,
            refresh_token := enc_refresh,
            token_expires_at := expires_at,
            scope := scope.getD "",
            status := "active",
            last_sync := some now,
            extra_data := dictUpdate acc.extra_data user_data }
        .ok (updated, db.map (fun b => if b.id = acc.id then updated else b))
    | [] =>
        let created : SocialMediaAccount :=
          { id := nextId, user := user, platform := platform,
            platform_user_id := pid,
            username := dictGet user_data "username" "",
            display_name := dictGet user_data "name" "",
            email := dictGet user_data "email" "",
            profile_url := dictGet user_data "profile_url" "",
            avatar_url := dictGet user_data "avatar_url" "",
            access_token := encrypt_token key access_token,
            refresh_token := enc_refresh,
            token_expires_at := expires_at,
            scope := scope.getD "",
            status := "active",
            last_sync := none,
            extra_data := user_data }
        .ok (created, db ++ [created])
    | _ => .error "MultipleObjectsReturned"

/-- C8 counterexample: re-auth for an existing account whose stored username
is `old`, with `user_data = {id: x, username: ""}`.  The claim says a display
field is overwritten "only where the new value is non-empty, keeping the
stored value otherwise", so the username should stay `old`; but `dict.get`
falls back to the stored value only when the KEY IS ABSENT, so the
present-but-empty value overwrites and the stored username becomes `""`. -/
theorem c8_counterexample_empty_value_overwrites :
    (store_tokens [1] 0
      [⟨1, 7, "linkedin", "x", "old", "Old", "", "", "", [], [], none, "",
        "active", none, []⟩]
      99 7 "linkedin" [65] none none none
      [("id", "x"), ("username", "")]).toOption.map (fun p => p.1.username) =
      some "" := by decide

/-- C8 (amended): on the update path, `store_tokens` overwrites each display
field exactly when its key is present in `user_data` (even with an empty
value) and keeps the stored value only when the key is absent; it merges
`user_data` into the attribute bag (new bindings win, others survive) and
sets status to `active`. -/
theorem c8_store_tokens_update (key : Bytes) (now : Nat)
    (db : List SocialMediaAccount) (nextId user : Nat) (platform : String)
    (access_token : Bytes) (refresh_token : Option Bytes)
    (expires_in : Option Nat) (scope : Option String)
    (user_data : List (String × String)) (acc : SocialMediaAccount)
    (pid : String) (hid : dictLookup user_data "id" = some pid)
    (hpid : pid ≠ "")
    (hkey : accountsByNaturalKey db user platform pid = [acc]) :
    ∃ a, store_tokens key now db nextId user platform access_token
        refresh_token expires_in scope user_data =
        .ok (a, db.map (fun b => if b.id = acc.id then a else b)) ∧
      a.username = dictGet user_data "username" acc.username ∧
      a.display_name = dictGet user_data "name" acc.display_name ∧
      a.email = dictGet user_data "email" acc.email ∧
      a.profile_url = dictGet user_data "profile_url" acc.profile_url ∧
      a.avatar_url = dictGet user_data "avatar_url" acc.avatar_url ∧
      a.status = "active" ∧
      (∀ k, dictLookup a.extra_data k =
        match dictLookup user_data k with
        | some v => some v
        | none => dictLookup acc.extra_data k) := by
  have hne : user_data ≠ [] := by
    intro h; rw [h] at hid; simp [dictLookup] at hid
  have hcond : ¬ (user_data = [] ∨ (some pid : Option String) = none ∨
      (some pid : Option String) = some "") := by
    simp [hne, hpid]
  simp only [store_tokens, hid, Option.getD_some, if_neg hcond, hkey]
  exact ⟨_, rfl, rfl, rfl, rfl, rfl, rfl, rfl,
    fun k => dictLookup_dictUpdate acc.extra_data user_data k⟩

/-- Witness for C8 (amended) at a concrete existing account and payload. -/
theorem c8_store_tokens_update_witness :
    ∃ a, (store_tokens [1] 0
      [⟨1, 7, "linkedin", "x", "old", "Old", "e@x", "", "", [], [], none, "",
        "inactive", none, [("k", "v")]⟩]
      99 7 "linkedin" [65] none none none
      [("id", "x"), ("username", "new")]).toOption = some (a, [a]) ∧
    a.username = "new" ∧ a.status = "active" := by
  obtain ⟨a, heq, hu, _, _, _, _, hs, _⟩ :=
    c8_store_tokens_update [1] 0
      [⟨1, 7, "linkedin", "x", "old", "Old", "e@x", "", "", [], [], none, "",
        "inactive", none, [("k", "v")]⟩]
      99 7 "linkedin" [65] none none none
      [("id", "x"), ("username", "new")]
      ⟨1, 7, "linkedin", "x", "old", "Old", "e@x", "", "", [], [], none, "",
       "inactive", none, [("k", "v")]⟩
      "x" (by decide) (by decide) (by decide)
  refine ⟨a, ?_, ?_, hs⟩
  · rw [heq]
    simp [Except.toOption]
  · rw [hu]
    decide

/-- C10: a falsy refresh token argument (`None` or `""`) makes `store_tokens`
store the empty string in the refresh-token field, in both the update branch
(erasing whatever refresh token the account had stored — the LinkedIn
callback always calls `store_tokens` without a refresh token) and the create
branch. -/
theorem c10_falsy_refresh_erased (key : Bytes) (now : Nat)
    (db : List SocialMediaAccount) (nextId user : Nat) (platform : String)
    (access_token : Bytes) (refresh_token : Option Bytes)
    (expires_in : Option Nat) (scope : Option String)
    (user_data : List (String × String)) (pid : String)
    (hfalsy : refresh_token = none ∨ refresh_token = some [])
    (hid : dictLookup user_data "id" = some pid) (hpid : pid ≠ "") :
    (∀ acc, accountsByNaturalKey db user platform pid = [acc] →
      ∃ a db2, store_tokens key now db nextId user platform access_token
          refresh_token expires_in scope user_data = .ok (a, db2) ∧
        a.refresh_token = []) ∧
    (accountsByNaturalKey db user platform pid = [] →
      ∃ a db2, store_tokens key now db nextId user platform access_token
          refresh_token expires_in scope user_data = .ok (a, db2) ∧
        a.refresh_token = []) := by
  have hne : user_data ≠ [] := by
    intro h; rw [h] at hid; simp [dictLookup] at hid
  have hcond : ¬ (user_data = [] ∨ (some pid : Option String) = none ∨
      (some pid : Option String) = some "") := by
    simp [hne, hpid]
  constructor
  · intro acc hacc
    rcases hfalsy with h | h <;>
      (subst h;
       simp only [store_tokens, hid, Option.getD_some, if_neg hcond, hacc];
       exact ⟨_, _, rfl, rfl⟩)
  · intro hacc
    rcases hfalsy with h | h <;>
      (subst h;
       simp only [store_tokens, hid, Option.getD_some, if_neg hcond, hacc];
       exact ⟨_, _, rfl, rfl⟩)

/-- Witness for C10: a re-auth without refresh token for an account holding
a stored (encrypted) refresh token ends with an empty refresh-token field. -/
theorem c10_falsy_refresh_erased_witness :
    ∃ a db2, store_tokens [1] 0
        [⟨1, 7, "linkedin", "x", "u", "", "", "", "", [65], [90, 90], none,
          "", "active", none, []⟩]
        99 7 "linkedin" [65] none none none [("id", "x")] = .ok (a, db2) ∧
      a.refresh_token = [] := by
  exact (c10_falsy_refresh_erased [1] 0
    [⟨1, 7, "linkedin", "x", "u", "", "", "", "", [65], [90, 90], none,
      "", "active", none, []⟩]
    99 7 "linkedin" [65] none none none [("id", "x")] "x"
    (Or.inl rfl) (by decide) (by decide)).1
    ⟨1, 7, "linkedin", "x", "u", "", "", "", "", [65], [90, 90], none,
     "", "active", none, []⟩ (by decide)

/-! ## PKCE generation (`twitter_login`)

The PKCE block of the Twitter login-initiate view and the authorization-URL
query parameters it assembles.  `secrets.token_bytes(32)` and
`hashlib.sha256` are runtime/library inputs, taken as parameters; the
verifier and challenge are the byte strings of their base64url characters. -/

/-- URL-safe base64 alphabet (`-`, ASCII 45, and `_`, ASCII 95, replace `+`
and `/`). -/
def sextetToCharUrl (v : Nat) : Nat :=
  if v = 62 then 45 else if v = 63 then 95 else sextetToChar v

/-- Python `base64.urlsafe_b64encode`. -/
def b64urlEncodeCore : Bytes → List Nat
  | [] => []
  | [a] => [sextetToCharUrl (a / 4), sextetToCharUrl (a % 4 * 16), 61, 61]
  | [a, b] =>
      [sextetToCharUrl (a / 4), sextetToCharUrl (a % 4 * 16 + b / 16),
       sextetToCharUrl (b % 16 * 4), 61]
  | a :: b :: c :: rest =>
      sextetToCharUrl (a / 4) :: sextetToCharUrl (a % 4 * 16 + b / 16) ::
      sextetToCharUrl (b % 16 * 4 + c / 64) :: sextetToCharUrl (c % 64) ::
      b64urlEncodeCore rest

/-- Python `.rstrip('=')`: drop the trailing padding characters. -/
def stripPad (cs : List Nat) : List Nat :=
  (cs.reverse.dropWhile (fun c => c = 61)).reverse

/-- URL-safe base64 without padding, as used for both PKCE values. -/
def b64urlNoPad (bs : Bytes) : List Nat := stripPad (b64urlEncodeCore bs)

structure PkcePair where
  code_verifier : List Nat
  code_challenge : List Nat
deriving DecidableEq

/-- The PKCE block of `twitter_login`: the verifier is the unpadded
base64url of the 32 random bytes, the challenge the unpadded base64url of
the SHA-256 digest of the verifier's character bytes. -/
def twitter_generate_pkce (sha256 : Bytes → Bytes) (randomBytes : Bytes) :
    PkcePair :=
  let code_verifier := b64urlNoPad randomBytes
  let code_challenge := b64urlNoPad (sha256 code_verifier)
  ⟨code_verifier, code_challenge⟩

/-- Character bytes of an ASCII string constant. -/
def asciiBytes (s : String) : List Nat := s.data.map (fun c => c.toNat)

/-- The `auth_params` dict assembled by `twitter_login` (values are the byte
strings that get URL-encoded). -/
def twitter_auth_params
    (clientId redirectUri state challenge timestamp : List Nat) :
    List (String × List Nat) :=
  [("response_type", asciiBytes "code"),
   ("client_id", clientId),
   ("redirect_uri", redirectUri),
   ("scope", asciiBytes "tweet.read users.read follows.read offline.access"),
   ("state", state),
   ("code_challenge", challenge),
   ("code_challenge_method", asciiBytes "S256"),
   ("force_login", asciiBytes "true"),
   ("_t", timestamp)]

/-- C9: for every PKCE pair generated at Twitter login-initiate from 32
random bytes, the verifier is the unpadded URL-safe base64 of those bytes,
the challenge is the unpadded URL-safe base64 of the SHA-256 digest of the
verifier, and the authorization parameters carry that challenge together
with `code_challenge_method=S256`. -/
theorem c9_twitter_pkce (sha256 : Bytes → Bytes) (randomBytes : Bytes)
    (clientId redirectUri state timestamp : List Nat)
    (hlen : randomBytes.length = 32) :
    (twitter_generate_pkce sha256 randomBytes).code_verifier =
      b64urlNoPad randomBytes ∧
    (twitter_generate_pkce sha256 randomBytes).code_challenge =
      b64urlNoPad
        (sha256 (twitter_generate_pkce sha256 randomBytes).code_verifier) ∧
    dictLookup
      (twitter_auth_params clientId redirectUri state
        (twitter_generate_pkce sha256 randomBytes).code_challenge timestamp)
      "code_challenge" =
      some (twitter_generate_pkce sha256 randomBytes).code_challenge ∧
    dictLookup
      (twitter_auth_params clientId redirectUri state
        (twitter_generate_pkce sha256 randomBytes).code_challenge timestamp)
      "code_challenge_method" = some (asciiBytes "S256") := by
  refine ⟨rfl, rfl, ?_, ?_⟩ <;>
    simp [twitter_auth_params, dictLookup]

/-- Witness for C9 at 32 concrete bytes and a concrete stand-in digest
function, plus a concrete check that the generated verifier is 43
characters with no `=` padding left. -/
theorem c9_twitter_pkce_witness :
    ((twitter_generate_pkce (fun _ => List.range 32)
        (List.range 32)).code_verifier = b64urlNoPad (List.range 32) ∧
     (twitter_generate_pkce (fun _ => List.range 32)
        (List.range 32)).code_challenge =
       b64urlNoPad ((fun _ => List.range 32)
         (twitter_generate_pkce (fun _ => List.range 32)
           (List.range 32)).code_verifier) ∧
     dictLookup
       (twitter_auth_params [1] [2] [3]
         (twitter_generate_pkce (fun _ => List.range 32)
           (List.range 32)).code_challenge [4]) "code_challenge" =
       some (twitter_generate_pkce (fun _ => List.range 32)
         (List.range 32)).code_challenge ∧
     dictLookup
       (twitter_auth_params [1] [2] [3]
         (twitter_generate_pkce (fun _ => List.range 32)
           (List.range 32)).code_challenge [4]) "code_challenge_method" =
       some (asciiBytes "S256")) ∧
    (twitter_generate_pkce (fun _ => List.range 32)
      (List.range 32)).code_verifier.length = 43 ∧
    61 ∉ (twitter_generate_pkce (fun _ => List.range 32)
      (List.range 32)).code_verifier := by
  refine ⟨c9_twitter_pkce (fun _ => List.range 32) (List.range 32)
    [1] [2] [3] [4] (by decide), by decide, by decide⟩

end Connectly
